import Mathlib

/-!
Shallow embedding of the `pengelolaandata` sales-report pipeline
(`src/utils/pdf_processor.py`, `src/utils/clustering.py`,
`src/utils/analysis.py`) and proofs about it.

Numeric values (Python floats holding currency amounts, quantities and
percentages) are modelled as `ℚ`; Python `None`/pandas `NaN` as `Option`.
External library calls (sklearn `KMeans.fit_predict`, `silhouette_score`,
the standard-scaler statistics) are parameters of the embedded functions:
an `Option`-valued result models a call that may raise, `none` being the
raised exception.  Side effects (the CSV snapshot written by
`pdf_to_csv`) are modelled as explicit output fields.
-/

namespace Pengelolaan

/-! ## `pdf_processor.py`: locale-aware numeric parsing -/

/-- Value of a list of decimal digit characters. -/
def digitsToNat (cs : List Char) : ℕ :=
  cs.foldl (fun n c => 10 * n + (c.toNat - Char.toNat '0')) 0

/-- Python `float()` applied to a string made of digits and at most one
dot: `none` models the `ValueError` raised on anything else
(empty string, several dots, a lone dot). -/
def pyFloat (cs : List Char) : Option ℚ :=
  let ip := cs.takeWhile Char.isDigit
  let rest := cs.drop ip.length
  match rest with
  | [] => if ip.isEmpty then none else some (digitsToNat ip : ℚ)
  | c :: frac =>
    if c = '.' then
      if frac.all Char.isDigit && !(ip.isEmpty && frac.isEmpty) then
        some ((digitsToNat ip : ℚ) + (digitsToNat frac : ℚ) / (10 ^ frac.length : ℚ))
      else none
    else none

/-- Tail of the Indonesian currency regex
`^\d{1,3}(\.\d{3})*(,\d{2})?$` after the leading 1–3 digits:
dot-separated 3-digit groups followed by an optional 2-digit
comma decimal. -/
def idTail : List Char → Bool
  | [] => true
  | [c, c1, c2] => if c = ',' then c1.isDigit && c2.isDigit else false
  | c :: c1 :: c2 :: c3 :: rest =>
    if c = '.' then c1.isDigit && c2.isDigit && c3.isDigit && idTail rest
    else false
  | _ => false

/-- Full match of `^\d{1,3}(\.\d{3})*(,\d{2})?$`
(`re.match` in `PDFProcessor._parse_float_safe`). -/
def matchesID (cs : List Char) : Bool :=
  let d := cs.takeWhile Char.isDigit
  decide (1 ≤ d.length) && decide (d.length ≤ 3) && idTail (cs.drop d.length)

/-- Tail of the quantity regex `^\d{1,3}(?:,\d{3})*(?:\.\d{2})?$`
after the leading 1–3 digits. -/
def qtyTail : List Char → Bool
  | [] => true
  | [c, c1, c2] => if c = '.' then c1.isDigit && c2.isDigit else false
  | c :: c1 :: c2 :: c3 :: rest =>
    if c = ',' then c1.isDigit && c2.isDigit && c3.isDigit && qtyTail rest
    else false
  | _ => false

/-- Full match of `^\d{1,3}(?:,\d{3})*(?:\.\d{2})?$`
(`PDFProcessor._safe_find_quantity`). -/
def matchesQty (cs : List Char) : Bool :=
  let d := cs.takeWhile Char.isDigit
  decide (1 ≤ d.length) && decide (d.length ≤ 3) && qtyTail (cs.drop d.length)

/-- Model of `re.sub(r"[^\d,\.]", "", text)`: keep only digits, commas and dots. -/
def clean_chars (text : String) : List Char :=
  text.toList.filter (fun c => c.isDigit || c == ',' || c == '.')

/-- The numeric value read by `PDFProcessor._parse_float_safe` before the
scale-up heuristic: clean the text, pick the Indonesian or the plain
branch, and run `float()`.  `none` is the exception path. -/
def parse_float_raw (text : String) : Option ℚ :=
  let clean := clean_chars text
  let t :=
    if matchesID clean then
      (clean.filter (fun c => c != '.')).map (fun c => if c == ',' then '.' else c)
    else
      clean.filter (fun c => c != ',')
  pyFloat t

/-- Model of `PDFProcessor._parse_float_safe`: parse failures give 0, and every
parsed value below 10000 is multiplied by 1000. -/
def parse_float_safe (text : String) : ℚ :=
  match parse_float_raw text with
  | none => 0
  | some v => if v < 10000 then v * 1000 else v

/-! ## `pdf_processor.py`: field extraction from one line -/

/-- Python's `sub in s` substring test. -/
def strContains (s pat : String) : Bool :=
  decide (pat.toList <:+: s.toList)

/-- Split a character list at every character satisfying `p`, keeping
empty groups (the semantics of Python `str.split(sep)` for a one-char
separator, with `p` testing for the separator). -/
def splitBy (p : Char → Bool) : List Char → List (List Char)
  | [] => [[]]
  | c :: rest =>
    match splitBy p rest with
    | [] => [[]]
    | g :: gs => if p c then [] :: g :: gs else (c :: g) :: gs

/-- Python `str.strip()`: drop leading and trailing whitespace. -/
def pyStrip (s : String) : String :=
  String.mk (((s.toList.dropWhile Char.isWhitespace).reverse.dropWhile
    Char.isWhitespace).reverse)

/-- Python `s.startswith("Rp")`. -/
def startsRp (s : String) : Bool :=
  decide (['R', 'p'] <+: s.toList)

/-- One extracted product record (a row of the canonical dataset).
`tanggal` is the run date (`datetime.now().date()`), passed to the
extraction as a parameter since it is the same for every record of a
run. -/
structure ProductRecord where
  produk : String
  jumlah_terjual : ℚ
  penjualan_rp : ℚ
  kategori : String
  tanggal : ℕ
deriving Repr, DecidableEq

/-- Python `str.split()` with no separator: split on whitespace runs,
dropping empty tokens. -/
def pySplit (s : String) : List String :=
  ((splitBy Char.isWhitespace s.toList).map String.mk).filter (fun t => t != "")

/-- Model of `PDFProcessor._safe_find_quantity`: parse the first token matching
the quantity pattern, 0 if none. -/
def safe_find_quantity (parts : List String) : ℚ :=
  match parts.find? (fun p => matchesQty p.toList) with
  | some p => parse_float_safe p
  | none => 0

/-- The while-loop of `PDFProcessor._extract_sales_amount`: concatenate
the tokens right after the `Rp` token as long as they match
`^[\d.,]+$`. -/
def numTail : List String → String
  | [] => ""
  | p :: rest =>
    if p != "" && p.toList.all (fun c => c.isDigit || c == '.' || c == ',') then
      p ++ numTail rest
    else ""

/-- Model of `PDFProcessor._extract_sales_amount`: find the first token starting
with `Rp`, glue on the numeric tokens that follow it, and parse. -/
def extract_sales_amount : List String → ℚ
  | [] => 0
  | p :: rest =>
    if startsRp p then parse_float_safe (p ++ numTail rest)
    else extract_sales_amount rest

/-- The ordered keyword table of
`PDFProcessor._determine_category_smart` (a Python dict, iterated in
insertion order). -/
def category_mapping : List (String × String) :=
  [("PAKET AYAM", "Paket Ayam"),
   ("PAKET IKAN LELE", "Paket Ikan Lele"),
   ("PAKET IKAN NILA", "Paket Ikan Nila"),
   ("PAKET BEBEK", "Paket Bebek"),
   ("PAKET CUMI", "Paket Seafood"),
   ("PAKET UDANG", "Paket Seafood"),
   ("AYAM BAKAR", "Ayam Bakar"),
   ("AYAM GORENG", "Ayam Goreng"),
   ("IKAN LELE", "Ikan Lele"),
   ("IKAN NILA", "Ikan Nila"),
   ("BEBEK", "Bebek"),
   ("NASI", "Nasi"),
   ("ES", "Minuman"),
   ("TEH", "Minuman"),
   ("JUS", "Minuman"),
   ("SUSU", "Minuman"),
   ("MIE", "Mie"),
   ("KWETIAU", "Mie"),
   ("CUMI", "Seafood"),
   ("UDANG", "Seafood")]

/-- Model of `PDFProcessor._determine_category_smart`: first keyword that is a
substring of the upper-cased name wins; default `"Lainnya"`. -/
def determine_category_smart (product_name : String) : String :=
  let up := String.mk (product_name.toList.map Char.toUpper)
  match category_mapping.find? (fun kv => strContains up kv.1) with
  | some kv => kv.2
  | none => "Lainnya"

/-- Model of `PDFProcessor._extract_product_from_line`.  `products` is the list
of records accepted so far by the caller (`_process_page_text`), used by
the duplicate-name check. -/
def extract_product_from_line (line : String) (products : List ProductRecord)
    (today : ℕ) : Option ProductRecord :=
  if !(strContains line "Rp") then none
  else
    let parts := pySplit line
    let name_parts := parts.takeWhile (fun p => !(startsRp p))
    if name_parts.isEmpty then none
    else
      let product_name := " ".intercalate name_parts
      if products.any (fun p => p.produk == product_name) then none
      else
        let quantity := safe_find_quantity parts
        let sales_amount := extract_sales_amount parts
        if product_name ≠ "" ∧ sales_amount > 0 then
          some { produk := product_name, jumlah_terjual := quantity,
                 penjualan_rp := sales_amount,
                 kategori := determine_category_smart product_name,
                 tanggal := today }
        else none

/-- The fixed header/footer keywords skipped by
`PDFProcessor._process_page_text`. -/
def header_keywords : List String :=
  ["SKU", "Outlet", "Kategori", "Laporan", "Periode", "Zona", "Pencarian"]

/-- Loop body of `PDFProcessor._process_page_text` for one raw line. -/
def page_step (today : ℕ) (products : List ProductRecord) (line : String) :
    List ProductRecord :=
  let l := pyStrip line
  if l != "" && !(header_keywords.any (fun k => strContains l k)) then
    match extract_product_from_line l products today with
    | some r => products ++ [r]
    | none => products
  else products

/-- Model of `PDFProcessor._process_page_text`: fold the page's lines, starting
from an empty per-page record list. -/
def process_page_text (text : String) (today : ℕ) : List ProductRecord :=
  ((splitBy (fun c => c == '\n') text.toList).map String.mk).foldl (page_step today) []

/-! ## `pdf_processor.py`: whole-document pipeline -/

/-- A pandas DataFrame of product records: column names plus rows. -/
structure DataFrame where
  cols : List String
  rows : List ProductRecord
deriving Repr, DecidableEq

/-- The canonical five-column schema of the extraction output. -/
def canonicalCols : List String :=
  ["produk", "jumlah_terjual", "penjualan_rp", "kategori", "tanggal"]

/-- Model of `PDFProcessor._final_validation`: the expected-total comparison is
only logged, so `_extracted_total` does not affect the result; records
with sales at or above the 1e9 ceiling are dropped. -/
def final_validation (df : DataFrame) (_extracted_total : ℚ) : DataFrame :=
  { df with rows := df.rows.filter (fun r => r.penjualan_rp < 1000000000) }

/-- The page loop of `PDFProcessor.pdf_to_csv`: pages whose extracted
text is falsy are skipped, the others contribute their records in page
order. -/
def extract_all (pages : List String) (today : ℕ) : List ProductRecord :=
  pages.foldl
    (fun acc text => if text == "" then acc else acc ++ process_page_text text today) []

/-- Result of `PDFProcessor.pdf_to_csv`: the DataFrame written to the
caller-supplied CSV path (`df.to_csv(csv_path)`, executed before the
return) and the returned DataFrame. -/
structure PdfResult where
  written : DataFrame
  returned : DataFrame
deriving Repr, DecidableEq

/-- Model of `PDFProcessor.pdf_to_csv` over the per-page extracted texts. -/
def pdf_to_csv (pages : List String) (today : ℕ) : PdfResult :=
  let all_products := extract_all pages today
  let extracted_total := (all_products.map (fun p => p.penjualan_rp)).sum
  let df :=
    if all_products.isEmpty then
      { cols := canonicalCols, rows := [] }
    else
      final_validation { cols := canonicalCols, rows := all_products } extracted_total
  { written := df, returned := df }

/-! ## `clustering.py`: scaler, cluster-count selection, segmentation

The sklearn calls are parameters: `km` stands for
`KMeans(n_clusters=k, random_state=42, n_init=10).fit_predict` together
with the fitted centers and inertia (a pure function of the scaled
matrix and `k`, the seed being fixed; `none` models a raised
exception), and `sil` for `silhouette_score` (`none` again an
exception).  `stats` stands for the statistics `StandardScaler.fit`
computes from a matrix (means and scales, another pure function of its
input). -/

/-- Fitted state of the shared `self.scaler` instance. -/
structure Scaler where
  mean : List ℚ
  scale : List ℚ
deriving Repr, DecidableEq

/-- Apply fitted statistics column-wise: `(x - mean) / scale`. -/
def Scaler.transform (s : Scaler) (X : List (List ℚ)) : List (List ℚ) :=
  X.map (fun row => (row.zip (s.mean.zip s.scale)).map
    (fun p => (p.1 - p.2.1) / p.2.2))

/-- Model of `self.scaler.fit_transform(X)`: refit on `X` (the previous state
`_st` is overwritten, which is exactly sklearn's `fit` semantics) and
transform `X` with the freshly fitted statistics. -/
def fit_transform (stats : List (List ℚ) → Scaler) (_st : Scaler)
    (X : List (List ℚ)) : Scaler × List (List ℚ) :=
  let fitted := stats X
  (fitted, fitted.transform X)

/-- Output of one `KMeans(...).fit_predict` run: per-row labels,
`cluster_centers_` and `inertia_`. -/
structure KMOut where
  labels : List ℕ
  centers : List (List ℚ)
  inertia : ℚ
deriving Repr, DecidableEq

/-- The KMeans trial runner (seeded, hence a function); `none` is a
raised numerical exception. -/
abbrev KMFit := List (List ℚ) → ℕ → Option KMOut

/-- Model of `silhouette_score(X, labels)`; `none` is a raised exception. -/
abbrev SilFn := List (List ℚ) → List ℕ → Option ℚ

/-- Score of one trial `k` inside
`CustomerClustering._find_optimal_clusters`: a raised exception or a
single distinct label contributes 0, otherwise the silhouette score
(whose own exception is also absorbed as 0 by the bare `except`). -/
def trial_score (km : KMFit) (sil : SilFn) (X : List (List ℚ)) (k : ℕ) : ℚ :=
  match km X k with
  | none => 0
  | some out =>
    if 1 < out.labels.dedup.length then (sil X out.labels).getD 0
    else 0

/-- Helper for `np.argmax`: index of the first maximum, scanning `l` whose
first element has index `i`, with current best index `bi` of value
`bv`. -/
def argmaxFrom (bi : ℕ) (bv : ℚ) (i : ℕ) : List ℚ → ℕ
  | [] => bi
  | x :: xs => if bv < x then argmaxFrom i x (i + 1) xs else argmaxFrom bi bv (i + 1) xs

/-- Model of `np.argmax`: index of the first maximal element (0 on the empty
list, where numpy would raise; never reached by the callers below). -/
def argmaxIdx : List ℚ → ℕ
  | [] => 0
  | x :: xs => argmaxFrom 0 x 1 xs

/-- Model of `CustomerClustering._find_optimal_clusters` (with its default
`max_clusters=6`), threading the `self.scaler` state: `≤ 3` rows give a
fixed 2 without touching the scaler; otherwise the feature matrix is
scaled and each `k` from 2 to `min 6 (rows − 1)` is scored, the first
best `k` winning. -/
def find_optimal_clusters (stats : List (List ℚ) → Scaler) (km : KMFit)
    (sil : SilFn) (st : Scaler) (F : List (List ℚ)) : Scaler × ℕ :=
  if F.length ≤ 3 then (st, 2)
  else
    let ft := fit_transform stats st F
    let maxC := min 6 (F.length - 1)
    let scores := (List.range (maxC - 1)).map (fun i => trial_score km sil ft.2 (i + 2))
    let optimal := if scores.isEmpty then 2 else argmaxIdx scores + 2
    (ft.1, min optimal maxC)

/-- Value returned by `CustomerClustering._perform_clustering`:
`labels`, `centers`, `inertia`, `silhouette_score`. -/
structure ClusterOut where
  labels : List ℕ
  centers : List (List ℚ)
  inertia : ℚ
  silhouette : ℚ
deriving Repr, DecidableEq

/-- Model of `CustomerClustering._perform_clustering`: rescale, run KMeans, and
attach the silhouette score (0 when only one distinct label).  `none`
models an exception escaping to `perform_analysis`'s `except`. -/
def perform_clustering (stats : List (List ℚ) → Scaler) (km : KMFit)
    (sil : SilFn) (st : Scaler) (F : List (List ℚ)) (k : ℕ) :
    Scaler × Option ClusterOut :=
  let ft := fit_transform stats st F
  match km ft.2 k with
  | none => (ft.1, none)
  | some out =>
    if 1 < out.labels.dedup.length then
      match sil ft.2 out.labels with
      | none => (ft.1, none)
      | some s => (ft.1, some ⟨out.labels, out.centers, out.inertia, s⟩)
    else (ft.1, some ⟨out.labels, out.centers, out.inertia, 0⟩)

/-! ## Shared pandas helpers -/

/-- Insert into a descending-sorted list, before the first element whose
key is not greater (so an element inserted from the left stays before
equal keys: the stable behaviour of pandas `nlargest(.., keep="first")`). -/
def insertDesc {α : Type} (key : α → ℚ) (a : α) : List α → List α
  | [] => [a]
  | b :: t => if key a < key b then b :: insertDesc key a t else a :: b :: t

/-- Stable descending sort by a rational key. -/
def sortDesc {α : Type} (key : α → ℚ) : List α → List α
  | [] => []
  | a :: t => insertDesc key a (sortDesc key t)

/-- pandas `nlargest(n, col)` on non-NaN keys: stable descending sort,
first `n` kept. -/
def nlargestBy {α : Type} (n : ℕ) (key : α → ℚ) (l : List α) : List α :=
  (sortDesc key l).take n

/-- Distinct values in order of first appearance. -/
def firstSeen : List String → List String
  | [] => []
  | a :: t => a :: (firstSeen t).filter (fun b => b != a)

/-- pandas `value_counts().head(3)`: the three most frequent values with
their counts, most frequent first. -/
def value_counts_top3 (l : List String) : List (String × ℕ) :=
  nlargestBy 3 (fun p => (p.2 : ℚ))
    ((firstSeen l).map (fun v => (v, (l.filter (fun x => x == v)).length)))

/-- pandas `Series.mean()`: `none` models the `NaN` produced on an empty
selection. -/
def pandasMean (l : List ℚ) : Option ℚ :=
  if l.isEmpty then none else some (l.sum / (l.length : ℚ))

/-! ## `clustering.py`: segment profiling -/

/-- Model of `CustomerClustering._name_segment` applied to the segment's
`avg_sales_per_product`: strictly-greater-than thresholds; `none` (the
`NaN` mean of an empty segment) fails every comparison and falls through
to the default. -/
def name_segment (avg_sales : Option ℚ) : String :=
  match avg_sales with
  | some a =>
    if a > 50000000 then "Produk Premium"
    else if a > 10000000 then "Produk High-Value"
    else if a > 1000000 then "Produk Medium-Value"
    else "Produk Standard"
  | none => "Produk Standard"

/-- Model of `CustomerClustering._generate_recommendations`: a fixed 3-item text
list keyed solely by the segment name. -/
def generate_recommendations (segment_name : String) : List String :=
  if segment_name == "Produk Premium" then
    ["Fokus pada kualitas dan experience pelanggan",
     "Tawarkan paket premium dengan nilai tambah",
     "Optimalkan inventory untuk produk high-margin"]
  else if segment_name == "Produk High-Value" then
    ["Tingkatkan promosi dan visibility",
     "Bundle dengan produk complementary",
     "Monitor stock dan demand pattern"]
  else if segment_name == "Produk Medium-Value" then
    ["Tingkatkan volume dengan promosi",
     "Optimalkan harga untuk competitive advantage",
     "Fokus pada customer retention"]
  else
    ["Evaluasi profitability secara berkala",
     "Pertimbangkan bundle dengan produk high-value",
     "Monitor performance metrics"]

/-- Per-segment statistics built by
`CustomerClustering._analyze_customer_segments` for one cluster id. -/
structure SegmentInfo where
  segment_size : ℕ
  total_sales : ℚ
  avg_sales_per_product : Option ℚ
  total_quantity : ℚ
  top_categories : List (String × ℕ)
  top_products : List (String × ℚ)
  segment_name : String
  recommendations : List String
deriving Repr, DecidableEq

/-- Statistics of one cluster's member rows. -/
def mkSegmentInfo (cluster_data : List ProductRecord) : SegmentInfo :=
  let sales := cluster_data.map (fun r => r.penjualan_rp)
  let avg := pandasMean sales
  let nm := name_segment avg
  { segment_size := cluster_data.length
    total_sales := sales.sum
    avg_sales_per_product := avg
    total_quantity := (cluster_data.map (fun r => r.jumlah_terjual)).sum
    top_categories := value_counts_top3 (cluster_data.map (fun r => r.kategori))
    top_products := nlargestBy 3 (fun p => p.2)
      (cluster_data.map (fun r => (r.produk, r.penjualan_rp)))
    segment_name := nm
    recommendations := generate_recommendations nm }

/-- Model of `CustomerClustering._analyze_customer_segments`: one entry per
cluster id from 0 to `max(labels)`, in ascending order; the members of
cluster `cid` are the rows whose label is `cid`. -/
def analyze_customer_segments (df : List ProductRecord) (labels : List ℕ) :
    List (ℕ × SegmentInfo) :=
  (List.range (labels.foldr Nat.max 0 + 1)).map (fun cid =>
    (cid, mkSegmentInfo (((df.zip labels).filter (fun p => p.2 == cid)).map
      (fun p => p.1))))

/-- Overall outcome of `CustomerClustering.perform_analysis` (the chart
payloads, being opaque rendered images, are outside the model). -/
inductive AnalysisOutcome where
  | failure (error : String)
  | success (optimal_clusters : ℕ) (clustering : ClusterOut)
      (segments : List (ℕ × SegmentInfo))
deriving Repr, DecidableEq

/-- pandas `DataFrame.empty`: no rows or no columns. -/
def dfEmpty (F : List (List ℚ)) : Bool :=
  F.isEmpty || F.all (fun row => row.isEmpty)

/-- Model of `CustomerClustering.perform_analysis`, threading the `self.scaler`
state through the two `fit_transform` calls.  `prep` is
`_prepare_features` (a pure function of the dataset: pandas arithmetic,
one-hot encoding and the zero-variance filter involve no instance
state). -/
def perform_analysis (prep : List ProductRecord → List (List ℚ))
    (stats : List (List ℚ) → Scaler) (km : KMFit) (sil : SilFn)
    (st : Scaler) (df : List ProductRecord) : Scaler × AnalysisOutcome :=
  let F := prep df
  if dfEmpty F || F.length < 3 then
    (st, .failure "Tidak cukup data untuk clustering (minimal 3 data points)")
  else
    let r1 := find_optimal_clusters stats km sil st F
    let r2 := perform_clustering stats km sil r1.1 F r1.2
    match r2.2 with
    | none => (r2.1, .failure "exception in clustering")
    | some co => (r2.1, .success r1.2 co (analyze_customer_segments df co.labels))

/-! ## `analysis.py`: favorite-menu ranking -/

/-- A row of the analysed dataset.  `jumlah_terjual` and
`persentase_terjual` are `Option` so that `none` models a `NaN` cell;
the name, sales and category cells of the canonical schema are plain
values. -/
structure SalesRow where
  produk : String
  jumlah_terjual : Option ℚ
  persentase_terjual : Option ℚ
  penjualan_rp : ℚ
  kategori : String
deriving Repr, DecidableEq

/-- The analysed DataFrame: which optional columns are present
(`'col' in df.columns`), plus the rows. -/
structure SalesDF where
  has_jumlah : Bool
  has_persentase : Bool
  has_penjualan : Bool
  rows : List SalesRow
deriving Repr, DecidableEq

/-- Python `int()` on a float: truncation toward zero. -/
def pyInt (q : ℚ) : ℤ :=
  if 0 ≤ q then ⌊q⌋ else ⌈q⌉

/-- Python `round(x, 2)`: scale by 100, round half to even, scale
back. -/
def pyRound2 (q : ℚ) : ℚ :=
  let x := q * 100
  let f : ℤ := ⌊x⌋
  let n : ℤ :=
    if x - f < 1 / 2 then f
    else if x - f > 1 / 2 then f + 1
    else if f % 2 = 0 then f else f + 1
  (n : ℚ) / 100

/-- The ranking value stored in one favorite-menu entry:
`jumlah_transaksi` (tier 1), `persentase_transaksi` (tier 2) or
`estimated_frequency` (tier 3). -/
inductive FavValue where
  | transaksi (n : ℤ)
  | persentase (q : ℚ)
  | estimasi (q : ℚ)
deriving Repr, DecidableEq

/-- The numeric content of a ranking value. -/
def FavValue.toQ : FavValue → ℚ
  | .transaksi n => (n : ℚ)
  | .persentase q => q
  | .estimasi q => q

/-- One entry of the favorite-menu list. -/
structure FavoriteEntry where
  produk : String
  value : FavValue
  penjualan_rp : ℚ
  kategori : String
  ranking_method : String
deriving Repr, DecidableEq

/-- Result of `SalesAnalyzer.analyze_favorite_menus`: the entry list,
the `method` tag and `total_analyzed` on success, the error text on
failure. -/
inductive FavoriteResult where
  | ok (favorite_menus : List FavoriteEntry) (method : String)
      (total_analyzed : ℕ)
  | failure (error : String)
deriving Repr, DecidableEq

/-- The `method` field of a result, if any. -/
def FavoriteResult.methodOf : FavoriteResult → Option String
  | .ok _ m _ => some m
  | .failure _ => none

/-- The entry list of a result (empty on failure). -/
def FavoriteResult.menusOf : FavoriteResult → List FavoriteEntry
  | .ok ms _ _ => ms
  | .failure _ => []

/-- Model of `df['jumlah_terjual'].sum()`: pandas skips NaN. -/
def qty_sum (df : SalesDF) : ℚ :=
  (df.rows.map (fun r => r.jumlah_terjual.getD 0)).sum

/-- Model of `SalesAnalyzer.analyze_favorite_menus` with its default
`top_n=10`.  Tier 1: the quantity column exists, is not all-NaN and has
a positive sum.  Tier 2: the percentage column exists with a non-NaN
value.  Tier 3: the sales column exists.  Otherwise a failure result.
pandas `nlargest` drops NaN rows, hence the `isSome` filters. -/
def analyze_favorite_menus (df : SalesDF) (top_n : ℕ) : FavoriteResult :=
  if df.has_jumlah && df.rows.any (fun r => r.jumlah_terjual.isSome)
      && decide (0 < qty_sum df) then
    let sel := nlargestBy top_n (fun r => r.jumlah_terjual.getD 0)
      (df.rows.filter (fun r => r.jumlah_terjual.isSome))
    let menus := sel.map (fun r =>
      { produk := r.produk, value := .transaksi (pyInt (r.jumlah_terjual.getD 0)),
        penjualan_rp := r.penjualan_rp, kategori := r.kategori,
        ranking_method := "Jumlah Transaksi Langsung" : FavoriteEntry })
    .ok menus "absolute_quantity" menus.length
  else if df.has_persentase && df.rows.any (fun r => r.persentase_terjual.isSome) then
    let sel := nlargestBy top_n (fun r => r.persentase_terjual.getD 0)
      (df.rows.filter (fun r => r.persentase_terjual.isSome))
    let menus := sel.map (fun r =>
      { produk := r.produk,
        value := .persentase (pyRound2 (r.persentase_terjual.getD 0)),
        penjualan_rp := r.penjualan_rp, kategori := r.kategori,
        ranking_method := "Persentase Transaksi" : FavoriteEntry })
    .ok menus "percentage_based" menus.length
  else if df.has_penjualan then
    let total_sales := (df.rows.map (fun r => r.penjualan_rp)).sum
    let sel := nlargestBy top_n (fun p => p.2)
      (df.rows.map (fun r => (r, r.penjualan_rp / total_sales * 100)))
    let menus := sel.map (fun p =>
      { produk := p.1.produk, value := .estimasi (pyRound2 p.2),
        penjualan_rp := p.1.penjualan_rp, kategori := p.1.kategori,
        ranking_method := "Estimasi dari Nilai Penjualan" : FavoriteEntry })
    .ok menus "estimated_from_sales" menus.length
  else
    .failure "Data tidak cukup untuk analisis menu favorit"

/-! ## Concrete instances used to evaluate the embedded functions -/

/-- A recorded KMeans run on two distinct rows with `k = 2`: sklearn
labels are 0-based, the row nearest the first center getting label 0. -/
def kmTwo : KMFit := fun _ _ => some ⟨[0, 1], [[0], [1]], 0⟩

/-- A silhouette function returning a fixed score. -/
def silOne : SilFn := fun _ _ => some 1

/-- A fixed scaler-statistics function. -/
def statsConst : List (List ℚ) → Scaler := fun _ => ⟨[0], [1]⟩

/-- A trial runner whose every run raises. -/
def kmNone : KMFit := fun _ _ => none

/-- A silhouette call that always raises. -/
def silNone : SilFn := fun _ _ => none

/-- A two-row dataset with both a quantity and a percentage column. -/
def favDf : SalesDF :=
  ⟨true, true, true,
   [⟨"A", some 2, some 90, 100, "X"⟩, ⟨"B", some 5, some 10, 200, "Y"⟩]⟩

/-! # Theorems -/

/-- C2: the locale-aware parse maps `"7.000,50"` to 7,000,500 (parsed
as 7000.50, then scaled by 1000 because it is below 10,000) and
`"1.234.567"` to 1,234,567 (at or above 10,000, no scale-up); in
general every successfully parsed value below 10,000 is multiplied by
1,000, larger values are returned as parsed, and a parse failure
yields 0. -/
theorem C2_locale_parse_scale_up :
    parse_float_safe "7.000,50" = 7000500
    ∧ parse_float_safe "1.234.567" = 1234567
    ∧ (∀ (t : String) (v : ℚ), parse_float_raw t = some v → v < 10000 →
        parse_float_safe t = v * 1000)
    ∧ (∀ (t : String) (v : ℚ), parse_float_raw t = some v → ¬ v < 10000 →
        parse_float_safe t = v)
    ∧ (∀ t : String, parse_float_raw t = none → parse_float_safe t = 0) := by
  refine ⟨?_, ?_, ?_, ?_, ?_⟩
  · have h : parse_float_raw "7.000,50" = some ((7000 : ℚ) + 50 / 10 ^ 2) := rfl
    unfold parse_float_safe
    rw [h]
    norm_num
  · have h : parse_float_raw "1.234.567" = some (1234567 : ℚ) := by decide
    unfold parse_float_safe
    rw [h]
    norm_num
  · intro t v h hlt
    unfold parse_float_safe
    rw [h]
    simp [hlt]
  · intro t v h hge
    unfold parse_float_safe
    rw [h]
    simp [hge]
  · intro t h
    unfold parse_float_safe
    rw [h]

/-- Witness for C2 at the concrete token `"500"`. -/
theorem C2_locale_parse_scale_up_witness :
    parse_float_raw "500" = some 500 ∧ (500 : ℚ) < 10000
    ∧ parse_float_safe "500" = 500 * 1000 :=
  ⟨by decide, by norm_num,
    C2_locale_parse_scale_up.2.2.1 "500" 500 (by decide) (by norm_num)⟩

/-- C6: after the final validation pass, no record with sales at or
above 1,000,000,000 remains in the dataset returned by the
extraction pipeline. -/
theorem C6_outlier_filter :
    ∀ (pages : List String) (today : ℕ) (r : ProductRecord),
    r ∈ (pdf_to_csv pages today).returned.rows → r.penjualan_rp < 1000000000 := by
  intro pages today r hr
  unfold pdf_to_csv at hr
  simp only at hr
  split at hr
  · simp at hr
  · unfold final_validation at hr
    simp only [List.mem_filter, decide_eq_true_eq] at hr
    exact hr.2

/-- Witness for C6: a record extracted from a one-page document is in
the returned dataset, so the theorem applies to it. -/
theorem C6_outlier_filter_witness :
    ({ produk := "Apel", jumlah_terjual := 0, penjualan_rp := 50000,
       kategori := "Lainnya", tanggal := 0 } : ProductRecord).penjualan_rp
      < 1000000000 :=
  C6_outlier_filter ["Apel Rp50.000"] 0 _ (by decide)

/-- C7: segment names are chosen by strictly-greater-than thresholds on
`avg_sales_per_product`: above 50,000,000 Premium, above 10,000,000
High-Value, above 1,000,000 Medium-Value, else Standard (the code's
label strings carry a `"Produk "` prefix); in particular 50,000,001 is
Premium while exactly 50,000,000 is High-Value. -/
theorem C7_segment_thresholds :
    name_segment (some 50000001) = "Produk Premium"
    ∧ name_segment (some 50000000) = "Produk High-Value"
    ∧ (∀ a : ℚ, 50000000 < a → name_segment (some a) = "Produk Premium")
    ∧ (∀ a : ℚ, 10000000 < a → a ≤ 50000000 →
        name_segment (some a) = "Produk High-Value")
    ∧ (∀ a : ℚ, 1000000 < a → a ≤ 10000000 →
        name_segment (some a) = "Produk Medium-Value")
    ∧ (∀ a : ℚ, a ≤ 1000000 → name_segment (some a) = "Produk Standard") := by
  refine ⟨by norm_num [name_segment], by norm_num [name_segment], ?_, ?_, ?_, ?_⟩
  · intro a h
    simp [name_segment, h]
  · intro a h1 h2
    simp [name_segment, h1, not_lt.mpr h2]
  · intro a h1 h2
    simp [name_segment, h1, not_lt.mpr h2,
      not_lt.mpr (h2.trans (by norm_num : (10000000 : ℚ) ≤ 50000000))]
  · intro a h
    simp [name_segment, not_lt.mpr h,
      not_lt.mpr (h.trans (by norm_num : (1000000 : ℚ) ≤ 10000000)),
      not_lt.mpr (h.trans (by norm_num : (1000000 : ℚ) ≤ 50000000))]

/-- Witness for C7 at the concrete average 20,000,000. -/
theorem C7_segment_thresholds_witness :
    (10000000 : ℚ) < 20000000 ∧ (20000000 : ℚ) ≤ 50000000
    ∧ name_segment (some 20000000) = "Produk High-Value" :=
  ⟨by norm_num, by norm_num,
    C7_segment_thresholds.2.2.2.1 20000000 (by norm_num) (by norm_num)⟩

/-- C8: the pipeline always writes the resulting dataset to the
caller-supplied CSV path before returning it (written = returned), the
returned dataset always carries the canonical five-column schema, and a
run that accepts zero records returns the empty canonical dataset
rather than failing. -/
theorem C8_empty_extraction :
    ∀ (pages : List String) (today : ℕ),
    (pdf_to_csv pages today).written = (pdf_to_csv pages today).returned
    ∧ (pdf_to_csv pages today).returned.cols = canonicalCols
    ∧ ((extract_all pages today).isEmpty = true →
        (pdf_to_csv pages today).returned = ⟨canonicalCols, []⟩) := by
  intro pages today
  refine ⟨rfl, ?_, ?_⟩
  · unfold pdf_to_csv
    simp only
    split
    · rfl
    · rfl
  · intro h
    unfold pdf_to_csv
    simp [h]

/-- Witness for C8: a page with no currency marker yields the empty
canonical dataset. -/
theorem C8_empty_extraction_witness :
    (pdf_to_csv ["hello world"] 0).returned = ⟨canonicalCols, []⟩ :=
  (C8_empty_extraction ["hello world"] 0).2.2 (by decide)

/-- C10: the quantity field goes through the same locale-aware parser as
the sales amount, so the scale-up heuristic applies to quantities: when
the first quantity-pattern token parses below 10,000 the stored quantity
is that value times 1,000; and a record's `jumlah_terjual` is exactly
`_safe_find_quantity` of the line's tokens. -/
theorem C10_quantity_scale_up :
    (∀ (parts : List String) (p : String) (v : ℚ),
       parts.find? (fun q => matchesQty q.toList) = some p →
       parse_float_raw p = some v → v < 10000 →
       safe_find_quantity parts = v * 1000)
    ∧ (∀ (line : String) (products : List ProductRecord) (today : ℕ)
        (r : ProductRecord),
       extract_product_from_line line products today = some r →
       r.jumlah_terjual = safe_find_quantity (pySplit line)) := by
  constructor
  · intro parts p v hfind hraw hlt
    unfold safe_find_quantity
    rw [hfind]
    show parse_float_safe p = v * 1000
    unfold parse_float_safe
    rw [hraw]
    simp [hlt]
  · intro line products today r h
    simp only [extract_product_from_line] at h
    split at h
    · exact absurd h (by simp)
    · split at h
      · exact absurd h (by simp)
      · split at h
        · exact absurd h (by simp)
        · split at h
          · injection h with h2
            rw [← h2]
          · exact absurd h (by simp)

/-- Witness for C10 at the concrete token list `["5"]`: the quantity
token 5 is stored as 5000. -/
theorem C10_quantity_scale_up_witness :
    ["5"].find? (fun q => matchesQty q.toList) = some "5"
    ∧ parse_float_raw "5" = some 5 ∧ (5 : ℚ) < 10000
    ∧ safe_find_quantity ["5"] = 5 * 1000 :=
  ⟨by decide, by decide, by norm_num,
    C10_quantity_scale_up.1 ["5"] "5" 5 (by decide) (by decide) (by norm_num)⟩

/-- A line accepted by `_extract_product_from_line` has a name that was
not among the already-accepted records handed to it. -/
theorem extract_product_name_fresh (line : String)
    (products : List ProductRecord) (today : ℕ) (r : ProductRecord)
    (h : extract_product_from_line line products today = some r) :
    ∀ p ∈ products, p.produk ≠ r.produk := by
  intro p hp
  simp only [extract_product_from_line] at h
  split at h
  · exact absurd h (by simp)
  · split at h
    · exact absurd h (by simp)
    · split at h
      case isTrue hdup => exact absurd h (by simp)
      case isFalse hdup =>
        split at h
        · injection h with h2
          intro hcontra
          exact hdup (List.any_eq_true.mpr ⟨p, hp, by
            rw [← h2] at hcontra
            simpa using hcontra⟩)
        · exact absurd h (by simp)

/-- One `page_step` preserves distinctness of the accepted names. -/
theorem page_step_nodup (today : ℕ) (line : String)
    (acc : List ProductRecord)
    (h : (acc.map (fun r => r.produk)).Nodup) :
    ((page_step today acc line).map (fun r => r.produk)).Nodup := by
  simp only [page_step]
  split
  · split
    case h_1 r heq =>
      have hfresh := extract_product_name_fresh _ _ _ _ heq
      simp only [List.map_append, List.map_cons, List.map_nil]
      rw [List.nodup_append]
      refine ⟨h, List.nodup_singleton _, ?_⟩
      intro a ha hb
      simp only [List.mem_singleton] at hb
      simp only [List.mem_map] at ha
      obtain ⟨p, hp, hpa⟩ := ha
      exact hfresh p hp (hpa.trans hb)
    case h_2 => exact h
  · exact h

/-- Folding `page_step` over any line list preserves the invariant. -/
theorem foldl_page_step_nodup (today : ℕ) (lines : List String) :
    ∀ acc : List ProductRecord, (acc.map (fun r => r.produk)).Nodup →
    ((lines.foldl (page_step today) acc).map (fun r => r.produk)).Nodup := by
  induction lines with
  | nil => intro acc h; simpa using h
  | cons l ls ih =>
    intro acc h
    exact ih _ (page_step_nodup today l acc h)

/-- C1 (amended): within one page, at most one record per distinct
product name is produced — the accepted names of one
`_process_page_text` run are pairwise distinct (first occurrence wins).
The cross-page version of the claim is refuted by
`C1_run_dedup_counterexample`. -/
theorem C1_page_dedup :
    ∀ (text : String) (today : ℕ),
    ((process_page_text text today).map (fun r => r.produk)).Nodup := by
  intro text today
  unfold process_page_text
  exact foldl_page_step_nodup today _ [] (by simp)

/-- Counterexample to C1 as stated: two pages each containing the line
`"Apel Rp50.000"` produce two records named `"Apel"` in the final
dataset — the duplicate-name check does not look across pages. -/
theorem C1_run_dedup_counterexample :
    ¬ (((pdf_to_csv ["Apel Rp50.000", "Apel Rp50.000"] 0).returned.rows.filter
        (fun r => r.produk == "Apel")).length ≤ 1) := by decide

/-- The function `argmaxFrom` keeps the incumbent when nothing beats it. -/
theorem argmaxFrom_of_not_lt (l : List ℚ) :
    ∀ (bi i : ℕ) (bv : ℚ), (∀ x ∈ l, ¬ bv < x) → argmaxFrom bi bv i l = bi := by
  induction l with
  | nil => intro bi i bv _; rfl
  | cons x xs ih =>
    intro bi i bv h
    unfold argmaxFrom
    rw [if_neg (h x (List.mem_cons_self x xs))]
    exact ih bi (i + 1) bv (fun y hy => h y (List.mem_cons_of_mem x hy))

/-- The argmax of a constant-zero list is 0 (the first maximum). -/
theorem argmaxIdx_zero_of_all_zero (l : List ℚ) (h : ∀ x ∈ l, x = 0)
    (hne : l ≠ []) : argmaxIdx l = 0 := by
  cases l with
  | nil => exact absurd rfl hne
  | cons x xs =>
    unfold argmaxIdx
    apply argmaxFrom_of_not_lt
    intro y hy
    rw [h x (List.mem_cons_self x xs), h y (List.mem_cons_of_mem x hy)]
    exact lt_irrefl 0

/-- C3: the cluster-count selector returns exactly 2 for at most 3 rows
— for every trial runner, i.e. without consulting any trial — and
otherwise a `k` with `2 ≤ k ≤ min 6 (rows − 1)`; a trial that raises,
or one producing a single distinct label, scores 0 instead of aborting,
and if every trial in range scores 0 the selector returns 2. -/
theorem C3_cluster_count_selector :
    ∀ (stats : List (List ℚ) → Scaler) (km : KMFit) (sil : SilFn)
      (st : Scaler) (F : List (List ℚ)),
    (F.length ≤ 3 → find_optimal_clusters stats km sil st F = (st, 2))
    ∧ (4 ≤ F.length →
        2 ≤ (find_optimal_clusters stats km sil st F).2
        ∧ (find_optimal_clusters stats km sil st F).2 ≤ min 6 (F.length - 1))
    ∧ (4 ≤ F.length →
        (∀ k, 2 ≤ k → k ≤ min 6 (F.length - 1) →
          trial_score km sil (fit_transform stats st F).2 k = 0) →
        (find_optimal_clusters stats km sil st F).2 = 2)
    ∧ (∀ (X : List (List ℚ)) (k : ℕ), km X k = none →
        trial_score km sil X k = 0)
    ∧ (∀ (X : List (List ℚ)) (k : ℕ) (out : KMOut), km X k = some out →
        out.labels.dedup.length ≤ 1 → trial_score km sil X k = 0) := by
  intro stats km sil st F
  refine ⟨?_, ?_, ?_, ?_, ?_⟩
  · intro h
    unfold find_optimal_clusters
    rw [if_pos h]
  · intro h
    have hn : ¬ F.length ≤ 3 := by omega
    have hmax : 2 ≤ min 6 (F.length - 1) := by omega
    simp only [find_optimal_clusters, if_neg hn]
    constructor
    · refine le_min ?_ hmax
      split
      · exact le_refl 2
      · exact Nat.le_add_left 2 _
    · exact min_le_right _ _
  · intro h hz
    have hn : ¬ F.length ≤ 3 := by omega
    have hmax : 3 ≤ min 6 (F.length - 1) := by omega
    simp only [find_optimal_clusters, if_neg hn]
    have hzero : ∀ x ∈ (List.range (min 6 (F.length - 1) - 1)).map
        (fun i => trial_score km sil (fit_transform stats st F).2 (i + 2)), x = 0 := by
      intro x hx
      simp only [List.mem_map, List.mem_range] at hx
      obtain ⟨i, hi, rfl⟩ := hx
      exact hz (i + 2) (by omega) (by omega)
    have hne : (List.range (min 6 (F.length - 1) - 1)).map
        (fun i => trial_score km sil (fit_transform stats st F).2 (i + 2)) ≠ [] := by
      simp only [ne_eq, List.map_eq_nil_iff, List.range_eq_nil]
      omega
    rw [if_neg (by simpa [List.isEmpty_iff] using hne)]
    rw [argmaxIdx_zero_of_all_zero _ hzero hne]
    omega
  · intro X k h
    unfold trial_score
    rw [h]
  · intro X k out h hle
    unfold trial_score
    rw [h]
    simp [Nat.not_lt.mpr hle]

/-- Witness for C3: a 3-row table gives exactly 2 even for an
always-raising trial runner, and a 5-row table stays within
`[2, min 6 4]`. -/
theorem C3_cluster_count_selector_witness :
    (([[(0 : ℚ)], [0], [0]] : List (List ℚ)).length ≤ 3
      ∧ find_optimal_clusters statsConst kmNone silNone ⟨[0], [1]⟩
          [[(0 : ℚ)], [0], [0]] = (⟨[0], [1]⟩, 2))
    ∧ (4 ≤ ([[(0 : ℚ)], [1], [2], [3], [4]] : List (List ℚ)).length
      ∧ 2 ≤ (find_optimal_clusters statsConst kmNone silNone ⟨[0], [1]⟩
          [[(0 : ℚ)], [1], [2], [3], [4]]).2
      ∧ (find_optimal_clusters statsConst kmNone silNone ⟨[0], [1]⟩
          [[(0 : ℚ)], [1], [2], [3], [4]]).2 ≤ min 6 4) :=
  ⟨⟨by simp,
    (C3_cluster_count_selector statsConst kmNone silNone ⟨[0], [1]⟩ _).1 (by simp)⟩,
   ⟨by simp,
    (C3_cluster_count_selector statsConst kmNone silNone ⟨[0], [1]⟩ _).2.1 (by simp)⟩⟩

/-- Counterexample to C4 as stated: a clustering run with `k = 2` whose
algorithm output labels the two rows `[0, 1]` — sklearn labels are
0-based — is emitted unchanged, so the emitted labels are `[0, 1]`, not
the 1-based `[1, 2]` the claim asserts. -/
theorem C4_one_based_counterexample :
    Option.map ClusterOut.labels
      (perform_clustering statsConst kmTwo silOne ⟨[0], [1]⟩ [[0], [1]] 2).2
      = some [0, 1]
    ∧ Option.map ClusterOut.labels
      (perform_clustering statsConst kmTwo silOne ⟨[0], [1]⟩ [[0], [1]] 2).2
      ≠ some [1, 2] := by
  constructor
  · decide
  · decide

/-- C4 (amended): the Segmenter emits the clustering algorithm's labels,
centers and inertia unchanged — no re-indexing and no re-sorting by size
or value — so when the algorithm's labels lie in `{0, …, k−1}` (as
sklearn's do), the emitted labels are 0-based consecutive ids in
`{0, …, k−1}`, not 1-based. -/
theorem C4_labels_passthrough :
    ∀ (stats : List (List ℚ) → Scaler) (km : KMFit) (sil : SilFn)
      (st : Scaler) (F : List (List ℚ)) (k : ℕ) (out : KMOut)
      (co : ClusterOut),
    km (fit_transform stats st F).2 k = some out →
    (perform_clustering stats km sil st F k).2 = some co →
    co.labels = out.labels ∧ co.centers = out.centers ∧ co.inertia = out.inertia
    ∧ ((∀ l ∈ out.labels, l < k) → ∀ l ∈ co.labels, l < k) := by
  intro stats km sil st F k out co hkm hpc
  simp only [perform_clustering] at hpc
  rw [hkm] at hpc
  have hfields : co.labels = out.labels ∧ co.centers = out.centers
      ∧ co.inertia = out.inertia := by
    split at hpc
    case h_1 => simp at hpc
    case h_2 out2 heq =>
      injection heq with heq2
      subst heq2
      split at hpc
      · split at hpc
        · simp at hpc
        · simp only at hpc
          injection hpc with h2
          rw [← h2]
          exact ⟨rfl, rfl, rfl⟩
      · simp only at hpc
        injection hpc with h2
        rw [← h2]
        exact ⟨rfl, rfl, rfl⟩
  refine ⟨hfields.1, hfields.2.1, hfields.2.2, ?_⟩
  intro hbound l hl
  rw [hfields.1] at hl
  exact hbound l hl

/-- Witness for C4 (amended) at the concrete two-row run. -/
theorem C4_labels_passthrough_witness :
    (Option.map ClusterOut.labels
      (perform_clustering statsConst kmTwo silOne ⟨[0], [1]⟩ [[0], [1]] 2).2
      = some [0, 1])
    ∧ (∀ l ∈ ([0, 1] : List ℕ), l < 2) := by
  have hkm : kmTwo (fit_transform statsConst ⟨[0], [1]⟩ [[0], [1]]).2 2
      = some ⟨[0, 1], [[0], [1]], 0⟩ := rfl
  have hpc : (perform_clustering statsConst kmTwo silOne ⟨[0], [1]⟩
      [[0], [1]] 2).2 = some ⟨[0, 1], [[0], [1]], 0, 1⟩ := by decide
  have h := C4_labels_passthrough statsConst kmTwo silOne ⟨[0], [1]⟩
    [[0], [1]] 2 ⟨[0, 1], [[0], [1]], 0⟩ ⟨[0, 1], [[0], [1]], 0, 1⟩ hkm hpc
  refine ⟨?_, ?_⟩
  · rw [hpc]
    rfl
  · exact h.2.2.2 (by decide)

/-- Membership in `insertDesc`. -/
theorem mem_insertDesc {α : Type} (key : α → ℚ) (a x : α) (l : List α) :
    x ∈ insertDesc key a l ↔ x = a ∨ x ∈ l := by
  induction l with
  | nil => simp [insertDesc]
  | cons b t ih =>
    unfold insertDesc
    split
    · simp only [List.mem_cons, ih]
      tauto
    · simp only [List.mem_cons]

/-- The insertion step preserves descending sortedness. -/
theorem pairwise_insertDesc {α : Type} (key : α → ℚ) (a : α) (l : List α)
    (h : l.Pairwise (fun u v => key v ≤ key u)) :
    (insertDesc key a l).Pairwise (fun u v => key v ≤ key u) := by
  induction l with
  | nil => simp [insertDesc]
  | cons b t ih =>
    rw [List.pairwise_cons] at h
    unfold insertDesc
    split
    case isTrue hc =>
      rw [List.pairwise_cons]
      constructor
      · intro x hx
        rcases (mem_insertDesc key a x t).mp hx with rfl | hx2
        · exact le_of_lt hc
        · exact h.1 x hx2
      · exact ih h.2
    case isFalse hc =>
      rw [List.pairwise_cons]
      constructor
      · intro x hx
        rcases List.mem_cons.mp hx with rfl | hx2
        · exact not_lt.mp hc
        · exact le_trans (h.1 x hx2) (not_lt.mp hc)
      · exact List.pairwise_cons.mpr h


/-- The stable descending sort is descending-sorted. -/
theorem pairwise_sortDesc {α : Type} (key : α → ℚ) (l : List α) :
    (sortDesc key l).Pairwise (fun u v => key v ≤ key u) := by
  induction l with
  | nil => simp [sortDesc]
  | cons a t ih => exact pairwise_insertDesc key a _ ih

/-- The selection `nlargestBy` returns a descending-sorted selection. -/
theorem pairwise_nlargestBy {α : Type} (n : ℕ) (key : α → ℚ) (l : List α) :
    (nlargestBy n key l).Pairwise (fun u v => key v ≤ key u) :=
  (pairwise_sortDesc key l).sublist (List.take_sublist n _)

/-- Python `int()` truncation is monotone. -/
theorem pyInt_mono {q r : ℚ} (h : q ≤ r) : pyInt q ≤ pyInt r := by
  unfold pyInt
  by_cases hq : 0 ≤ q
  · rw [if_pos hq, if_pos (le_trans hq h)]
    exact Int.floor_le_floor h
  · rw [if_neg hq]
    by_cases hr : 0 ≤ r
    · rw [if_pos hr]
      have h1 : ⌈q⌉ ≤ 0 := Int.ceil_le.mpr (by exact_mod_cast le_of_not_le hq)
      have h2 : (0 : ℤ) ≤ ⌊r⌋ := Int.le_floor.mpr (by exact_mod_cast hr)
      omega
    · rw [if_neg hr]
      exact Int.ceil_le_ceil h

/-- C5: on any dataset whose quantity column exists with at least one
non-missing value and a positive sum, the favorite-menu analysis uses
tier 1, whatever the percentage column contains: the method is the
direct-transaction-count one (`"absolute_quantity"`, entries tagged
`"Jumlah Transaksi Langsung"`) and the entries are ranked by quantity
descending. -/
theorem C5_favorite_tier1 :
    ∀ df : SalesDF,
    df.has_jumlah = true →
    df.rows.any (fun r => r.jumlah_terjual.isSome) = true →
    0 < qty_sum df →
    (analyze_favorite_menus df 10).methodOf = some "absolute_quantity"
    ∧ (∀ e ∈ (analyze_favorite_menus df 10).menusOf,
        e.ranking_method = "Jumlah Transaksi Langsung")
    ∧ ((analyze_favorite_menus df 10).menusOf).Pairwise
        (fun a b => b.value.toQ ≤ a.value.toQ) := by
  intro df h1 h2 h3
  unfold analyze_favorite_menus
  rw [if_pos (by simp [h1, h2, h3])]
  refine ⟨rfl, ?_, ?_⟩
  · intro e he
    simp only [FavoriteResult.menusOf, List.mem_map] at he
    obtain ⟨r, _, rfl⟩ := he
    rfl
  · show (List.map _ (nlargestBy 10 _ _)).Pairwise _
    apply List.Pairwise.map
    · intro u v huv
      show FavValue.toQ (.transaksi (pyInt (v.jumlah_terjual.getD 0)))
        ≤ FavValue.toQ (.transaksi (pyInt (u.jumlah_terjual.getD 0)))
      simp only [FavValue.toQ]
      exact_mod_cast pyInt_mono huv
    · exact pairwise_nlargestBy 10 _ _

/-- Witness for C5: a two-row dataset that also carries a percentage
column is still ranked by tier 1. -/
theorem C5_favorite_tier1_witness :
    favDf.has_jumlah = true
    ∧ favDf.rows.any (fun r => r.jumlah_terjual.isSome) = true
    ∧ 0 < qty_sum favDf
    ∧ (analyze_favorite_menus favDf 10).methodOf = some "absolute_quantity" :=
  ⟨rfl, by decide, by norm_num [qty_sum, favDf],
   (C5_favorite_tier1 favDf rfl (by decide) (by norm_num [qty_sum, favDf])).1⟩


/-- The chosen cluster count does not depend on the incoming scaler
state (the state is refit before the trials, or never touched). -/
theorem find_optimal_snd_const (stats : List (List ℚ) → Scaler) (km : KMFit)
    (sil : SilFn) (s s' : Scaler) (F : List (List ℚ)) :
    (find_optimal_clusters stats km sil s F).2
      = (find_optimal_clusters stats km sil s' F).2 := by
  unfold find_optimal_clusters fit_transform
  by_cases h : F.length ≤ 3 <;> simp [h]

/-- The function `_perform_clustering` is entirely independent of the incoming scaler
state: `fit_transform` refits from its input matrix. -/
theorem perform_clustering_const (stats : List (List ℚ) → Scaler) (km : KMFit)
    (sil : SilFn) (s s' : Scaler) (F : List (List ℚ)) (k : ℕ) :
    perform_clustering stats km sil s F k
      = perform_clustering stats km sil s' F k := rfl

/-- C9: the clustering pipeline is deterministic and call-independent:
its outcome on a dataset is the same whatever scaler state the
`CustomerClustering` instance holds when called, and in particular
running it on `dfB` right after a run on `dfA` (which leaves the state
fitted to the features of `dfA`) gives exactly the run-on-`dfB`-alone
outcome. -/
theorem C9_stateless_pipeline :
    ∀ (prep : List ProductRecord → List (List ℚ))
      (stats : List (List ℚ) → Scaler) (km : KMFit) (sil : SilFn)
      (s1 s2 : Scaler) (dfA dfB : List ProductRecord),
    (perform_analysis prep stats km sil s1 dfB).2
      = (perform_analysis prep stats km sil s2 dfB).2
    ∧ (perform_analysis prep stats km sil
        ((perform_analysis prep stats km sil s1 dfA).1) dfB).2
      = (perform_analysis prep stats km sil s1 dfB).2 := by
  intro prep stats km sil s1 s2 dfA dfB
  have key : ∀ (s s' : Scaler) (df : List ProductRecord),
      (perform_analysis prep stats km sil s df).2
        = (perform_analysis prep stats km sil s' df).2 := by
    intro s s' df
    unfold perform_analysis
    by_cases h : (dfEmpty (prep df) || decide ((prep df).length < 3)) = true
    · simp [h]
    · simp only [h, if_false]
      rw [find_optimal_snd_const stats km sil s s' (prep df),
        perform_clustering_const stats km sil
          (find_optimal_clusters stats km sil s (prep df)).1
          (find_optimal_clusters stats km sil s' (prep df)).1 (prep df)
          (find_optimal_clusters stats km sil s' (prep df)).2]
      simp
  exact ⟨key s1 s2 dfB, key _ s1 dfB⟩

end Pengelolaan
